import Mathlib

/-!
Verification of the "Bot or Not" game backend (Game Session Engine).

The TypeScript services are shallowly embedded:
* numbers are modelled as exact rationals (`ℚ`) and integers (`ℤ`, `ℕ`);
  `Math.floor` is `Int.floor` and `Math.round` is `round` (both round
  half-integers towards positive infinity, as in JavaScript);
* the in-memory `Map`-based store becomes association lists that preserve
  insertion order (`mapSet` replaces in place, like `Map.set`);
* `Array.prototype.sort`, which is stable, is modelled by the stable
  structural `List.insertionSort` with the non-strict comparison;
* fallible operations return `Except String`, carrying the exact message of
  the `Error` thrown by the service;
* clock values (`new Date()`) and generated uuids are passed as explicit
  arguments.
-/

namespace BotOrNot

/-- Game modes, from `models/GameSession` (`'daily' | 'streak'`). -/
inductive GameMode where
  | daily
  | streak
deriving DecidableEq, Repr

/-- Player choices (`'ai' | 'real'`). -/
inductive PlayerChoice where
  | ai
  | real
deriving DecidableEq, Repr

/-! ## ScoreCalculator (part_002) -/

/-- `ScoreCalculator.calculateScore`: base 100, difficulty bonus `d×20`,
time bonus `max(0, 50 − 2×min(t/1000, 30))`, streak multiplier
`1 + streak×0.1`, floored; `0` when the guess is incorrect.
`responseTime` is in milliseconds. -/
def calculateScore (isCorrect : Bool) (responseTime : ℚ)
    (difficulty : ℕ) (currentStreak : ℕ) : ℤ :=
  if isCorrect = false then 0
  else
    let baseScore : ℚ := 100
    let difficultyBonus : ℚ := (difficulty : ℚ) * 20
    let responseTimeSeconds : ℚ := min (responseTime / 1000) 30
    let timeBonus : ℚ := max 0 (50 - responseTimeSeconds * 2)
    let streakMultiplier : ℚ := 1 + (currentStreak : ℚ) * (1 / 10)
    ⌊(baseScore + difficultyBonus + timeBonus) * streakMultiplier⌋

/-- `ScoreCalculator.getDifficultyFromStreak` (part_002, lines 100–106):
thresholds 5/10/15/20.  Note these differ from the thresholds used by
`GameService.getNextPairForGame` (see `nextPairTargetDifficulty`). -/
def getDifficultyFromStreak (streak : ℕ) : ℕ :=
  if streak < 5 then 1
  else if streak < 10 then 2
  else if streak < 15 then 3
  else if streak < 20 then 4
  else 5

/-! ## GameService.calculatePoints (part_011, lines 382–404)

The engine does *not* call `ScoreCalculator`; it has its own private
`calculatePoints` with a different time bonus (`max(0, (30 − t/1000)×2)`,
up to 60), `Math.round` instead of `Math.floor`, and a streak multiplier
applied only in streak mode. -/

/-- `GameService.calculatePoints`. -/
def calculatePoints (isCorrect : Bool) (responseTime : ℚ) (difficulty : ℕ)
    (currentStreak : ℕ) (gameMode : GameMode) : ℤ :=
  if isCorrect = false then 0
  else
    let basePoints : ℚ := 100
    let difficultyMultiplier : ℚ := (difficulty : ℚ) * (2 / 10)
    let timeBonus : ℚ := max 0 ((30 - responseTime / 1000) * 2)
    let streakMultiplier : ℚ :=
      if gameMode = GameMode.streak then 1 + (currentStreak : ℚ) * (1 / 10) else 1
    round ((basePoints + basePoints * difficultyMultiplier + timeBonus) * streakMultiplier)

/-! ## Data model (models/Image, models/ImagePair, models/GameSession) -/

/-- The fields of `Image` used by the pair service (category, difficulty and
the AI flag; upload metadata is outside the engine core). -/
structure Image where
  id : String
  category : String
  difficulty_level : ℕ
  is_ai_generated : Bool
deriving DecidableEq, Repr

/-- `ImagePair` (models/ImagePair).  Dates are abstract tick counts. -/
structure ImagePair where
  pair_id : String
  ai_image_id : String
  real_image_id : String
  category : String
  difficulty_level : ℕ
  creation_date : ℕ
  success_rate : ℚ
  total_attempts : ℕ
  correct_guesses : ℕ
  average_response_time : ℚ
  is_active : Bool
deriving DecidableEq, Repr

/-- `GameSession` (models/GameSession), as constructed by `GameService`. -/
structure GameSession where
  session_id : String
  player_id : Option String
  game_mode : GameMode
  start_time : ℕ
  end_time : Option ℕ
  total_score : ℤ
  rounds_completed : ℕ
  current_streak : ℕ
  is_completed : Bool
  daily_challenge_date : Option String
deriving DecidableEq, Repr

/-- `GameRound` (models/GameSession), as constructed by `GameService`. -/
structure GameRound where
  round_id : String
  session_id : String
  pair_id : String
  player_choice : PlayerChoice
  correct_answer : PlayerChoice
  is_correct : Bool
  response_time : ℚ
  points_earned : ℤ
  round_number : ℕ
  timestamp : ℕ
deriving DecidableEq, Repr

/-! ## DatabaseService: the in-memory store

JavaScript `Map`s preserve insertion order and `Map.set` replaces an
existing key in place; we model them as association lists with `mapSet`
and `mapGet`. -/

/-- `Map.set`: replace in place if the key exists, otherwise append. -/
def mapSet {α : Type} (m : List (String × α)) (k : String) (v : α) :
    List (String × α) :=
  match m with
  | [] => [(k, v)]
  | (k', v') :: rest =>
      if k' = k then (k, v) :: rest else (k', v') :: mapSet rest k v

/-- `Map.get`: first (unique) binding of the key. -/
def mapGet {α : Type} (m : List (String × α)) (k : String) : Option α :=
  match m with
  | [] => none
  | (k', v') :: rest => if k' = k then some v' else mapGet rest k

/-- The in-memory database (`DatabaseService`), restricted to the entities
the Game Session Engine touches. -/
structure Store where
  imagePairs : List (String × ImagePair)
  gameSessions : List (String × GameSession)
  gameRounds : List (String × GameRound)
deriving DecidableEq, Repr

/-- Filters accepted by `DatabaseService.getAllImagePairs`. -/
structure PairFilters where
  category : Option String := none
  difficulty : Option ℕ := none
  is_active : Option Bool := none

/-- `DatabaseService.getAllImagePairs`: all pairs in insertion order,
narrowed by the provided equality filters. -/
def getAllImagePairs (st : Store) (f : PairFilters) : List ImagePair :=
  let pairs := st.imagePairs.map Prod.snd
  let pairs := match f.category with
    | none => pairs
    | some c => pairs.filter (fun p => p.category = c)
  let pairs := match f.difficulty with
    | none => pairs
    | some d => pairs.filter (fun p => p.difficulty_level = d)
  match f.is_active with
  | none => pairs
  | some b => pairs.filter (fun p => p.is_active = b)

/-- `DatabaseService.getGameRoundsBySession`: the session's rounds sorted by
`round_number` (stable sort, as `Array.prototype.sort`). -/
def getGameRoundsBySession (st : Store) (sessionId : String) : List GameRound :=
  ((st.gameRounds.map Prod.snd).filter
      (fun r => r.session_id = sessionId)).insertionSort
    (fun a b => a.round_number ≤ b.round_number)

/-! ## ImagePairService (backend/src/services/ImagePairService.ts) -/

/-- `Math.round(x * 100) / 100`: round to two decimal places. -/
def round2 (x : ℚ) : ℚ := (round (x * 100) : ℚ) / 100

/-- The pair record built by `ImagePairService.createImagePair`
(lines 51–63) once both images have been validated: the category comes from
the AI image, the difficulty is the max of the two images' difficulties and
all statistics start at zero. -/
def createImagePair (newId : String) (now : ℕ) (aiImage realImage : Image) :
    ImagePair where
  pair_id := newId
  ai_image_id := aiImage.id
  real_image_id := realImage.id
  category := aiImage.category
  difficulty_level := max aiImage.difficulty_level realImage.difficulty_level
  creation_date := now
  success_rate := 0
  total_attempts := 0
  correct_guesses := 0
  average_response_time := 0
  is_active := true

/-- `PairSelectionCriteria` (models/ImagePair). -/
structure PairSelectionCriteria where
  category : Option String := none
  difficulty : Option ℕ := none
  excludePairIds : List String := []
  activeOnly : Option Bool := none

/-- The candidate set of `ImagePairService.selectPairForGame` (lines
142–156): pairs matching the filters (`is_active` defaults to `true`
unless `activeOnly` is explicitly `false`), minus the excluded ids. -/
def availablePairsFor (st : Store) (criteria : PairSelectionCriteria) :
    List ImagePair :=
  let filters : PairFilters :=
    { category := criteria.category
      difficulty := criteria.difficulty
      is_active := some (criteria.activeOnly ≠ some false) }
  let allPairs := getAllImagePairs st filters
  if criteria.excludePairIds.length > 0 then
    allPairs.filter (fun p => (criteria.excludePairIds.contains p.pair_id) = false)
  else allPairs

/-- `ImagePairService.selectPairForGame`: weight each candidate (+0.5 for
below-average usage, + (50 − |success_rate − 50|)/100), sort by weight
descending (the mean usage is the same for every candidate, so it is
computed once here), keep the top `min 5 _` candidates and pick one of them
at random; the random draw is modelled by the oracle `rand`.  Returns
`none` (the `NotFound` signal) exactly when the candidate set is empty —
the service itself never retries with relaxed criteria. -/
def selectPairForGame (st : Store) (criteria : PairSelectionCriteria)
    (rand : ℕ) : Option ImagePair :=
  let availablePairs := availablePairsFor st criteria
  if availablePairs.length = 0 then none
  else
    let avgUsage : ℚ :=
      ((availablePairs.map (fun p => (p.total_attempts : ℚ))).sum) /
        (availablePairs.length : ℚ)
    let weightedPairs := availablePairs.map (fun p =>
      let weight : ℚ := 1
      let weight : ℚ :=
        if (p.total_attempts : ℚ) < avgUsage then weight + 1 / 2 else weight
      let successRateDiff : ℚ := |p.success_rate - 50|
      (p, weight + (50 - successRateDiff) / 100))
    let sorted := weightedPairs.insertionSort (fun a b => b.2 ≤ a.2)
    let topCandidates := sorted.take (min 5 sorted.length)
    (topCandidates.get? (rand % topCandidates.length)).map Prod.fst

/-- The pure record update of `ImagePairService.updatePairStats`
(lines 207–221): bump the attempt counters, recompute the success rate to
two decimals, and fold the response time into the rolling average. -/
def updatePairStatsPair (pair : ImagePair) (isCorrect : Bool)
    (responseTime : ℚ) : ImagePair :=
  let newTotalAttempts := pair.total_attempts + 1
  let newCorrectGuesses := pair.correct_guesses + (if isCorrect then 1 else 0)
  let newSuccessRate : ℚ := ((newCorrectGuesses : ℚ) / (newTotalAttempts : ℚ)) * 100
  let totalResponseTime : ℚ :=
    pair.average_response_time * (pair.total_attempts : ℚ) + responseTime
  let newAverageResponseTime : ℚ := totalResponseTime / (newTotalAttempts : ℚ)
  { pair with
      total_attempts := newTotalAttempts
      correct_guesses := newCorrectGuesses
      success_rate := round2 newSuccessRate
      average_response_time := (round newAverageResponseTime : ℚ) }

/-- `ImagePairService.updatePairStats` on the store: a missing pair is
logged and left untouched.  (The usage-count bump of the two underlying
images is outside the modelled entities.) -/
def updatePairStats (st : Store) (pairId : String) (isCorrect : Bool)
    (responseTime : ℚ) : Store :=
  match mapGet st.imagePairs pairId with
  | none => st
  | some pair =>
      { st with
          imagePairs :=
            mapSet st.imagePairs pairId
              (updatePairStatsPair pair isCorrect responseTime) }

/-! ## GameService (part_011)

Thrown `Error`s become `Except.error` with the service's message.  The
service enumerates all sessions via `Object.values(this.db["gameSessions"])`;
the model uses the values of the session map in insertion order.  (At
runtime `Object.values` applied to a JavaScript `Map` actually yields *no*
entries — a `Map`'s contents are not own enumerable properties — so the
three service functions built on it see an empty list; the model keeps the
enumeration the surrounding code is written against, which only makes the
guards *more* effective than they are at runtime.) -/

/-- `CreateGameSessionData` (models/GameSession). -/
structure CreateGameSessionData where
  player_id : Option String
  game_mode : GameMode

/-- `CreateGameRoundData` (models/GameSession). -/
structure CreateGameRoundData where
  session_id : String
  pair_id : String
  player_choice : PlayerChoice
  response_time : ℚ

/-- `GameService.getTodaysDailySession` (lines 410–424): the *first*
stored session of this player in daily mode stamped with today's date,
completed or not. -/
def getTodaysDailySession (sessions : List GameSession) (playerId : String)
    (today : String) : Option GameSession :=
  sessions.find? (fun s =>
    decide (s.player_id = some playerId) &&
    decide (s.game_mode = GameMode.daily) &&
    decide (s.daily_challenge_date = some today))

/-- The fresh session record built at the top of
`GameService.startGameSession` (lines 26–37). -/
def newSessionRecord (newId : String) (now : ℕ) (today : String)
    (data : CreateGameSessionData) : GameSession where
  session_id := newId
  player_id := data.player_id
  game_mode := data.game_mode
  start_time := now
  end_time := none
  total_score := 0
  rounds_completed := 0
  current_streak := 0
  is_completed := false
  daily_challenge_date :=
    if data.game_mode = GameMode.daily then some today else none

/-- The guard at lines 39–47 of `startGameSession`: only for a daily
session of an identified player, and only when the first matching daily
session of that player for today is completed. -/
def duplicateDailyCheck (st : Store) (data : CreateGameSessionData)
    (today : String) : Bool :=
  match data.game_mode, data.player_id with
  | GameMode.daily, some pid =>
      match getTodaysDailySession (st.gameSessions.map Prod.snd) pid today with
      | some existingSession => existingSession.is_completed
      | none => false
  | _, _ => false

/-- `GameService.startGameSession` (lines 22–59): build a fresh session;
throw `"Daily challenge already completed today"` when the duplicate-daily
guard fires; otherwise insert the new session. -/
def startGameSession (st : Store) (newId : String) (now : ℕ) (today : String)
    (data : CreateGameSessionData) : Except String (GameSession × Store) :=
  if duplicateDailyCheck st data today then
    Except.error "Daily challenge already completed today"
  else
    Except.ok (newSessionRecord newId now today data,
      { st with
          gameSessions :=
            mapSet st.gameSessions (newSessionRecord newId now today data).session_id
              (newSessionRecord newId now today data) })

/-- The `Partial<GameSession>` update that `submitPlayerChoice` passes to
`endGameSession` (the `is_completed`/`end_time` members are overridden by
`endGameSession` itself, so only these three matter). -/
structure SessionUpdates where
  total_score : Option ℤ := none
  rounds_completed : Option ℕ := none
  current_streak : Option ℕ := none

/-- Spreading a partial update over a session (`{ ...session, ...updates }`). -/
def applySessionUpdates (s : GameSession) (u : SessionUpdates) : GameSession :=
  { s with
      total_score := u.total_score.getD s.total_score
      rounds_completed := u.rounds_completed.getD s.rounds_completed
      current_streak := u.current_streak.getD s.current_streak }

/-- `GameResult.final_stats`. -/
structure FinalStats where
  correct_answers : ℕ
  total_rounds : ℕ
  accuracy_percentage : ℚ
  average_response_time : ℤ
deriving DecidableEq, Repr

/-- `GameResult` (models/GameSession). -/
structure GameResult where
  session_id : String
  total_score : ℤ
  rounds_completed : ℕ
  current_streak : ℕ
  is_completed : Bool
  final_stats : FinalStats
deriving DecidableEq, Repr

/-- `GameService.endGameSession` (lines 323–380): look the session up
(`"Game session not found"` if missing), apply the caller's updates plus
`is_completed := true` and a fresh `end_time` — with *no* check whether the
session was already completed — store it back, and compute the final
statistics from the session's rounds. -/
def endGameSession (st : Store) (sessionId : String) (now : ℕ)
    (updates : SessionUpdates) : Except String (GameResult × Store) :=
  match mapGet st.gameSessions sessionId with
  | none => Except.error "Game session not found"
  | some session =>
      let updatedSession : GameSession :=
        { applySessionUpdates session updates with
            is_completed := true
            end_time := some now }
      let st' : Store :=
        { st with gameSessions := mapSet st.gameSessions sessionId updatedSession }
      let rounds := getGameRoundsBySession st' sessionId
      let correctAnswers := (rounds.filter (fun r => r.is_correct)).length
      let totalRounds := rounds.length
      let accuracyPercentage : ℚ :=
        if totalRounds > 0 then ((correctAnswers : ℚ) / (totalRounds : ℚ)) * 100
        else 0
      let averageResponseTime : ℚ :=
        if totalRounds > 0 then
          ((rounds.map (fun r => r.response_time)).sum) / (totalRounds : ℚ)
        else 0
      Except.ok
        ({ session_id := sessionId
           total_score := updatedSession.total_score
           rounds_completed := updatedSession.rounds_completed
           current_streak := updatedSession.current_streak
           is_completed := true
           final_stats :=
             { correct_answers := correctAnswers
               total_rounds := totalRounds
               accuracy_percentage := round2 accuracyPercentage
               average_response_time := round averageResponseTime } }, st')

/-- What `GameService.submitPlayerChoice` resolves with. -/
structure SubmitResult where
  round : GameRound
  isCorrect : Bool
  pointsEarned : ℤ
  gameResult : Option GameResult
deriving DecidableEq, Repr

/-- The body of `GameService.submitPlayerChoice` (lines 216–316) once the
session and pair lookups have succeeded: the correct answer is always
`ai`; points come from the private `calculatePoints` with the pair's
difficulty and the session's pre-update streak; the round is stored with
`round_number = existing rounds + 1`.  In streak mode an incorrect answer
ends the session immediately; in daily mode the session ends once
`rounds_completed` reaches 3; otherwise the session is updated in place.
Pair statistics are updated in every successful branch. -/
def submitWithSessionPair (st : Store) (newRoundId : String) (now : ℕ)
    (data : CreateGameRoundData) (session : GameSession) (pair : ImagePair) :
    Except String (SubmitResult × Store) :=
  let correctAnswer := PlayerChoice.ai
        let isCorrect : Bool := decide (data.player_choice = correctAnswer)
        let pointsEarned :=
          calculatePoints isCorrect data.response_time pair.difficulty_level
            session.current_streak session.game_mode
        let existingRounds := getGameRoundsBySession st data.session_id
        let roundNumber := existingRounds.length + 1
        let round : GameRound :=
          { round_id := newRoundId
            session_id := data.session_id
            pair_id := data.pair_id
            player_choice := data.player_choice
            correct_answer := correctAnswer
            is_correct := isCorrect
            response_time := data.response_time
            points_earned := pointsEarned
            round_number := roundNumber
            timestamp := now }
        let st1 : Store :=
          { st with gameRounds := mapSet st.gameRounds newRoundId round }
        let newTotalScore := session.total_score + pointsEarned
        let newRoundsCompleted := session.rounds_completed + 1
        let newCurrentStreak :=
          if session.game_mode = GameMode.streak ∧ isCorrect = true then
            session.current_streak + 1
          else session.current_streak
        let endUpdates : SessionUpdates :=
          { total_score := some newTotalScore
            rounds_completed := some newRoundsCompleted
            current_streak := some newCurrentStreak }
        if session.game_mode = GameMode.streak ∧ isCorrect = false then
          match endGameSession st1 data.session_id now endUpdates with
          | Except.error e => Except.error e
          | Except.ok (gameResult, st2) =>
              let st3 := updatePairStats st2 data.pair_id isCorrect data.response_time
              Except.ok
                ({ round := round, isCorrect := isCorrect,
                   pointsEarned := pointsEarned, gameResult := some gameResult }, st3)
        else if session.game_mode = GameMode.daily ∧ newRoundsCompleted ≥ 3 then
          match endGameSession st1 data.session_id now endUpdates with
          | Except.error e => Except.error e
          | Except.ok (gameResult, st2) =>
              let st3 := updatePairStats st2 data.pair_id isCorrect data.response_time
              Except.ok
                ({ round := round, isCorrect := isCorrect,
                   pointsEarned := pointsEarned, gameResult := some gameResult }, st3)
        else
          let st2 : Store :=
            { st1 with
                gameSessions :=
                  mapSet st1.gameSessions data.session_id
                    { session with
                        total_score := newTotalScore
                        rounds_completed := newRoundsCompleted
                        current_streak := newCurrentStreak } }
          let st3 := updatePairStats st2 data.pair_id isCorrect data.response_time
          Except.ok
            ({ round := round, isCorrect := isCorrect,
               pointsEarned := pointsEarned, gameResult := none }, st3)

/-- `GameService.submitPlayerChoice` (lines 194–321): reject a missing
session (`"Game session not found"`), a completed session
(`"Game session is already completed"`) and a missing pair
(`"Image pair not found"`); otherwise run the submission body. -/
def submitPlayerChoice (st : Store) (newRoundId : String) (now : ℕ)
    (data : CreateGameRoundData) : Except String (SubmitResult × Store) :=
  match mapGet st.gameSessions data.session_id with
  | none => Except.error "Game session not found"
  | some session =>
    if session.is_completed = true then
      Except.error "Game session is already completed"
    else
      match mapGet st.imagePairs data.pair_id with
      | none => Except.error "Image pair not found"
      | some pair => submitWithSessionPair st newRoundId now data session pair

/-- `ImagePairService.getAllImagePairs` paginates with a default limit of
20, and `getNextPairForGame` reads `result.pairs` — i.e. the first page. -/
def servicePairsPage (st : Store) (f : PairFilters) : List ImagePair :=
  (getAllImagePairs st f).take 20

/-- The mode-specific target-difficulty policy of
`GameService.getNextPairForGame` (lines 80–125), as a function of the
session and the number of rounds already played.  Daily mode distributes
the distinct difficulty levels present among (the first page of) active
pairs over the three rounds; streak mode is a staircase on the current
streak with thresholds 3/7/12/20.  `none` models `undefined` (no
difficulty constraint). -/
def nextPairTargetDifficulty (st : Store) (session : GameSession)
    (playedRoundsCount : ℕ) : Option ℕ :=
  match session.game_mode with
  | GameMode.daily =>
      let allPairs := servicePairsPage st { is_active := some true }
      let availableDifficulties :=
        ((allPairs.map (fun p => p.difficulty_level)).dedup).insertionSort (· ≤ ·)
      if availableDifficulties.length > 0 then
        let roundNumber := playedRoundsCount + 1
        if availableDifficulties.length = 1 then
          availableDifficulties.get? 0
        else if availableDifficulties.length ≥ 3 then
          if roundNumber = 1 then availableDifficulties.get? 0
          else if roundNumber = 2 then
            availableDifficulties.get? (availableDifficulties.length / 2)
          else availableDifficulties.get? (availableDifficulties.length - 1)
        else availableDifficulties.get? (if roundNumber ≤ 2 then 0 else 1)
      else none
  | GameMode.streak =>
      let streak := session.current_streak
      if streak < 3 then some 1
      else if streak < 7 then some 2
      else if streak < 12 then some 3
      else if streak < 20 then some 4
      else some 5

/-! ## Leaderboard (part_011, lines 494–544) -/

/-- One leaderboard bucket (rank added at the end). -/
structure PlayerStat where
  player_id : String
  best_score : ℤ
  best_streak : ℕ
  total_games : ℕ
  last_played : ℕ
deriving DecidableEq, Repr

/-- The body of the `forEach` in `GameService.getLeaderboard`: keep each
player's single highest `total_score` session (note that on replacement
`best_streak` is overwritten, not maxed), count games, track the most
recent `end_time`. -/
def leaderboardUpsert (stats : List (String × PlayerStat))
    (session : GameSession) : List (String × PlayerStat) :=
  let playerId := session.player_id.getD "anonymous"
  match mapGet stats playerId with
  | none =>
      mapSet stats playerId
        { player_id := playerId
          best_score := session.total_score
          best_streak := session.current_streak
          total_games := 0 + 1
          last_played := session.end_time.getD session.start_time }
  | some existing =>
      if session.total_score > existing.best_score then
        mapSet stats playerId
          { player_id := playerId
            best_score := session.total_score
            best_streak := session.current_streak
            total_games := existing.total_games + 1
            last_played := session.end_time.getD session.start_time }
      else
        mapSet stats playerId
          { existing with
              total_games := existing.total_games + 1
              best_streak := max existing.best_streak session.current_streak
              last_played :=
                match session.end_time with
                | some e =>
                    if e > existing.last_played then e else existing.last_played
                | none => existing.last_played }

/-- `GameService.getLeaderboard` over the enumerated sessions: completed
sessions only, optionally filtered by mode, grouped per player, sorted by
best score descending (stable), truncated to `limit`, and given 1-based
ranks in list order. -/
def getLeaderboard (sessions : List GameSession) (gameMode : Option GameMode)
    (limit : ℕ) : List (ℕ × PlayerStat) :=
  let filteredSessions := sessions.filter (fun s => s.is_completed)
  let filteredSessions :=
    match gameMode with
    | none => filteredSessions
    | some m => filteredSessions.filter (fun s => decide (s.game_mode = m))
  let playerStats := filteredSessions.foldl leaderboardUpsert []
  let leaderboard :=
    (playerStats.map Prod.snd).insertionSort (fun a b => b.best_score ≤ a.best_score)
  ((leaderboard.take limit).enum).map (fun ip => (ip.1 + 1, ip.2))

/-! ## Operation traces

The mutating entry points of the engine, as one step relation, for stating
properties over every subsequent call sequence.  A failed operation leaves
the store as it was (the service throws before writing). -/

/-- One mutating call into the engine. -/
inductive Op where
  | startOp (newId : String) (now : ℕ) (today : String)
      (data : CreateGameSessionData)
  | submitOp (newRoundId : String) (now : ℕ) (data : CreateGameRoundData)
  | endOp (sessionId : String) (now : ℕ) (updates : SessionUpdates)

/-- The store after one engine call (unchanged when the call throws). -/
def applyOp (st : Store) (op : Op) : Store :=
  match op with
  | Op.startOp newId now today data =>
      match startGameSession st newId now today data with
      | Except.ok (_, st') => st'
      | Except.error _ => st
  | Op.submitOp newRoundId now data =>
      match submitPlayerChoice st newRoundId now data with
      | Except.ok (_, st') => st'
      | Except.error _ => st
  | Op.endOp sessionId now updates =>
      match endGameSession st sessionId now updates with
      | Except.ok (_, st') => st'
      | Except.error _ => st

/-- The store after a sequence of engine calls. -/
def applyOps (st : Store) (ops : List Op) : Store := ops.foldl applyOp st

/-- `op` does not recreate the session `sessionId` (uuids are fresh, so a
`start` never reuses an existing session id). -/
def opAvoidsSession (sessionId : String) : Op → Prop
  | Op.startOp newId _ _ _ => newId ≠ sessionId
  | Op.submitOp _ _ _ => True
  | Op.endOp _ _ _ => True

/-- The session `sessionId` exists in the store and is completed. -/
def completedAt (st : Store) (sessionId : String) : Prop :=
  ∃ s, mapGet st.gameSessions sessionId = some s ∧ s.is_completed = true

/-! ## Concrete fixtures used by witnesses and counterexamples -/

/-- The invariant of claim C7: `correct_guesses ≤ total_attempts` and
`success_rate = round(100 × correct/attempts, 2)` (0 with no attempts). -/
def PairStatsInv (p : ImagePair) : Prop :=
  p.correct_guesses ≤ p.total_attempts ∧
  p.success_rate =
    (if p.total_attempts = 0 then 0
     else round2 (100 * (p.correct_guesses : ℚ) / (p.total_attempts : ℚ)))

/-! ## Shared concrete fixtures -/

/-- A concrete active pair of difficulty 1 with no recorded attempts. -/
def pairFix : ImagePair where
  pair_id := "p1"
  ai_image_id := "a1"
  real_image_id := "r1"
  category := "portrait"
  difficulty_level := 1
  creation_date := 0
  success_rate := 0
  total_attempts := 0
  correct_guesses := 0
  average_response_time := 0
  is_active := true

/-- A fresh streak-mode session. -/
def streakSessionFix : GameSession where
  session_id := "s1"
  player_id := some "P"
  game_mode := GameMode.streak
  start_time := 0
  end_time := none
  total_score := 0
  rounds_completed := 0
  current_streak := 0
  is_completed := false
  daily_challenge_date := none

/-- A fresh daily-mode session. -/
def dailySessionFix : GameSession where
  session_id := "s2"
  player_id := some "P"
  game_mode := GameMode.daily
  start_time := 0
  end_time := none
  total_score := 0
  rounds_completed := 0
  current_streak := 0
  is_completed := false
  daily_challenge_date := some "2024-01-01"

/-- A store holding the pair and both fresh sessions. -/
def storeFix : Store where
  imagePairs := [("p1", pairFix)]
  gameSessions := [("s1", streakSessionFix), ("s2", dailySessionFix)]
  gameRounds := []

/-- An already-completed session (ended at tick 50). -/
def doneSessionFix : GameSession where
  session_id := "d1"
  player_id := some "P"
  game_mode := GameMode.streak
  start_time := 10
  end_time := some 50
  total_score := 120
  rounds_completed := 1
  current_streak := 0
  is_completed := true
  daily_challenge_date := none

/-- A store holding only the completed session. -/
def storeDoneFix : Store where
  imagePairs := []
  gameSessions := [("d1", doneSessionFix)]
  gameRounds := []

/-- Witness for C8: concrete criteria excluding the id `"px"` over the
fixture store (difficulty 1, active only). -/
def criteriaFix : PairSelectionCriteria where
  category := none
  difficulty := some 1
  excludePairIds := ["px"]
  activeOnly := some true

/-! ## Claim C6: the one-completed-daily-per-day invariant fails

`startGameSession` only rejects a daily start when the *first* stored
session of that player stamped with today's date is completed.  An
earlier, still-incomplete daily session shadows a completed one — and
both can then be driven to completion.  (At runtime the guard is dead
code anyway: `getTodaysDailySession` enumerates `Object.values` of a
`Map`, which is empty; the model gives the guard the enumeration the
code was written against, and the invariant still fails.) -/

/-- A store with just the fixture pair. -/
def storeC6 : Store where
  imagePairs := [("p1", pairFix)]
  gameSessions := []
  gameRounds := []

/-- Start daily session `S1`, start daily session `S2` (allowed: the
incomplete `S1` shadows the check), complete `S2` with three rounds, then
complete the still-open `S1` with three rounds. -/
def traceC6 : List Op :=
  [Op.startOp "S1" 0 "2024-01-01" ⟨some "P", GameMode.daily⟩,
   Op.startOp "S2" 1 "2024-01-01" ⟨some "P", GameMode.daily⟩,
   Op.submitOp "R1" 2 ⟨"S2", "p1", PlayerChoice.ai, 0⟩,
   Op.submitOp "R2" 3 ⟨"S2", "p1", PlayerChoice.ai, 0⟩,
   Op.submitOp "R3" 4 ⟨"S2", "p1", PlayerChoice.ai, 0⟩,
   Op.submitOp "R4" 5 ⟨"S1", "p1", PlayerChoice.ai, 0⟩,
   Op.submitOp "R5" 6 ⟨"S1", "p1", PlayerChoice.ai, 0⟩,
   Op.submitOp "R6" 7 ⟨"S1", "p1", PlayerChoice.ai, 0⟩]

/-- Completed session of player A scoring 300. -/
def sessA : GameSession where
  session_id := "sa"
  player_id := some "A"
  game_mode := GameMode.streak
  start_time := 1
  end_time := some 11
  total_score := 300
  rounds_completed := 3
  current_streak := 2
  is_completed := true
  daily_challenge_date := none

/-- Completed session of player B scoring 500. -/
def sessB : GameSession where
  session_id := "sb"
  player_id := some "B"
  game_mode := GameMode.streak
  start_time := 2
  end_time := some 12
  total_score := 500
  rounds_completed := 4
  current_streak := 3
  is_completed := true
  daily_challenge_date := none

/-- Completed session of player C scoring 500 (tied with B). -/
def sessC : GameSession where
  session_id := "sc"
  player_id := some "C"
  game_mode := GameMode.streak
  start_time := 3
  end_time := some 13
  total_score := 500
  rounds_completed := 4
  current_streak := 1
  is_completed := true
  daily_challenge_date := none

/-- Completed session of player D scoring 100. -/
def sessD : GameSession where
  session_id := "sd"
  player_id := some "D"
  game_mode := GameMode.streak
  start_time := 4
  end_time := some 14
  total_score := 100
  rounds_completed := 2
  current_streak := 0
  is_completed := true
  daily_challenge_date := none

/-- The session list of the claim's fixture. -/
def lbSessions : List GameSession := [sessA, sessB, sessC, sessD]

/-! ## Infrastructure lemmas -/

theorem mapGet_mapSet_self {α : Type} (m : List (String × α)) (k : String)
    (v : α) : mapGet (mapSet m k v) k = some v := by
  induction m with
  | nil => simp [mapSet, mapGet]
  | cons hd tl ih =>
      obtain ⟨k', v'⟩ := hd
      by_cases h : k' = k
      · simp [mapSet, mapGet, h]
      · simp [mapSet, mapGet, h, ih]

theorem mapGet_mapSet_ne {α : Type} (m : List (String × α)) (k k' : String)
    (v : α) (h : k' ≠ k) : mapGet (mapSet m k v) k' = mapGet m k' := by
  have hk : ¬(k = k') := fun hh => h hh.symm
  induction m with
  | nil => simp [mapSet, mapGet, hk]
  | cons hd tl ih =>
      obtain ⟨k2, v2⟩ := hd
      by_cases h2 : k2 = k
      · subst h2
        simp [mapSet, mapGet, hk]
      · simp only [mapSet, if_neg h2, mapGet]
        split <;> simp [ih]

theorem updatePairStats_gameSessions (st : Store) (pid : String) (b : Bool)
    (t : ℚ) : (updatePairStats st pid b t).gameSessions = st.gameSessions := by
  unfold updatePairStats
  split <;> rfl

theorem updatePairStats_gameRounds (st : Store) (pid : String) (b : Bool)
    (t : ℚ) : (updatePairStats st pid b t).gameRounds = st.gameRounds := by
  unfold updatePairStats
  split <;> rfl

/-- A successful `startGameSession` call inserts exactly the fresh session
record under the fresh id. -/
theorem startGameSession_ok_shape (st : Store) (newId : String) (now : ℕ)
    (today : String) (data : CreateGameSessionData) (sess : GameSession)
    (st' : Store)
    (h : startGameSession st newId now today data = Except.ok (sess, st')) :
    sess = newSessionRecord newId now today data ∧
      st'.imagePairs = st.imagePairs ∧ st'.gameRounds = st.gameRounds ∧
      st'.gameSessions = mapSet st.gameSessions newId sess := by
  unfold startGameSession at h
  split at h
  · exact absurd h (by simp)
  · simp only [Except.ok.injEq, Prod.mk.injEq] at h
    obtain ⟨hsess, hst⟩ := h
    subst hst
    subst hsess
    exact ⟨rfl, rfl, rfl, rfl⟩

/-- A successful `endGameSession` call found the session, rewrote exactly
it (updates applied, `is_completed := true`, fresh `end_time`), and left
pairs and rounds untouched. -/
theorem endGameSession_ok_shape (st : Store) (sid : String) (now : ℕ)
    (u : SessionUpdates) (gr : GameResult) (st' : Store)
    (h : endGameSession st sid now u = Except.ok (gr, st')) :
    ∃ session, mapGet st.gameSessions sid = some session ∧
      st'.imagePairs = st.imagePairs ∧ st'.gameRounds = st.gameRounds ∧
      st'.gameSessions = mapSet st.gameSessions sid
        { applySessionUpdates session u with
            is_completed := true, end_time := some now } := by
  unfold endGameSession at h
  split at h
  · exact absurd h (by simp)
  · rename_i session hsession
    simp only [Except.ok.injEq, Prod.mk.injEq] at h
    obtain ⟨-, hst⟩ := h
    exact ⟨session, hsession, by rw [← hst], by rw [← hst], by rw [← hst]⟩

/-- A successful submission body rewrote the session map only at the
submitted session's id. -/
theorem submitWithSessionPair_ok_shape (st : Store) (rid : String) (now : ℕ)
    (data : CreateGameRoundData) (session : GameSession) (pair : ImagePair)
    (res : SubmitResult) (st' : Store)
    (h : submitWithSessionPair st rid now data session pair =
      Except.ok (res, st')) :
    ∃ v, st'.gameSessions = mapSet st.gameSessions data.session_id v := by
  unfold submitWithSessionPair at h
  simp only [] at h
  split at h
  · -- streak mode, incorrect answer: the session is ended
    split at h
    · exact absurd h (by simp)
    · rename_i out gr2 st2 hend
      simp only [Except.ok.injEq, Prod.mk.injEq] at h
      obtain ⟨-, hst⟩ := h
      obtain ⟨s2, -, -, -, hshape⟩ := endGameSession_ok_shape _ _ _ _ _ _ hend
      exact ⟨_, by rw [← hst, updatePairStats_gameSessions, hshape]⟩
  split at h
  · -- daily mode, third round: the session is ended
    split at h
    · exact absurd h (by simp)
    · rename_i out gr2 st2 hend
      simp only [Except.ok.injEq, Prod.mk.injEq] at h
      obtain ⟨-, hst⟩ := h
      obtain ⟨s2, -, -, -, hshape⟩ := endGameSession_ok_shape _ _ _ _ _ _ hend
      exact ⟨_, by rw [← hst, updatePairStats_gameSessions, hshape]⟩
  · -- game continues: in-place session update
    simp only [Except.ok.injEq, Prod.mk.injEq] at h
    obtain ⟨-, hst⟩ := h
    exact ⟨_, by rw [← hst, updatePairStats_gameSessions]⟩

/-- A successful `submitPlayerChoice` rewrote the session map only at the
submitted session's id. -/
theorem submitPlayerChoice_ok_shape (st : Store) (rid : String) (now : ℕ)
    (data : CreateGameRoundData) (res : SubmitResult) (st' : Store)
    (h : submitPlayerChoice st rid now data = Except.ok (res, st')) :
    ∃ v, st'.gameSessions = mapSet st.gameSessions data.session_id v := by
  unfold submitPlayerChoice at h
  split at h
  · exact absurd h (by simp)
  split at h
  · exact absurd h (by simp)
  split at h
  · exact absurd h (by simp)
  exact submitWithSessionPair_ok_shape _ _ _ _ _ _ _ _ h

/-- Submitting to a completed session always throws
`"Game session is already completed"`. -/
theorem submitPlayerChoice_completed (st : Store) (rid : String) (now : ℕ)
    (data : CreateGameRoundData) (s : GameSession)
    (hs : mapGet st.gameSessions data.session_id = some s)
    (hc : s.is_completed = true) :
    submitPlayerChoice st rid now data =
      Except.error "Game session is already completed" := by
  unfold submitPlayerChoice
  rw [hs]
  simp [hc]

/-- `endGameSession` cannot fail when the session is present. -/
theorem endGameSession_found_ne_error (st : Store) (sid : String) (now : ℕ)
    (u : SessionUpdates) (s : GameSession) (e : String)
    (hs : mapGet st.gameSessions sid = some s) :
    endGameSession st sid now u ≠ Except.error e := by
  unfold endGameSession
  rw [hs]
  simp

/-- When the session and pair lookups succeed, `submitPlayerChoice` runs
the submission body. -/
theorem submitPlayerChoice_eq (st : Store) (rid : String) (now : ℕ)
    (data : CreateGameRoundData) (session : GameSession) (pair : ImagePair)
    (hs : mapGet st.gameSessions data.session_id = some session)
    (hnc : session.is_completed = false)
    (hp : mapGet st.imagePairs data.pair_id = some pair) :
    submitPlayerChoice st rid now data =
      submitWithSessionPair st rid now data session pair := by
  unfold submitPlayerChoice
  rw [hs]
  simp [hnc, hp]

/-- Full characterisation of a submission: it succeeds, the correctness
flag and points are as computed by `calculatePoints` on the pre-update
streak, the stored session's counters advance as the mode dictates, and a
`GameResult` is produced exactly when the session just completed. -/
theorem submitWithSessionPair_inversion (st : Store) (rid : String) (now : ℕ)
    (data : CreateGameRoundData) (session : GameSession) (pair : ImagePair)
    (hs : mapGet st.gameSessions data.session_id = some session)
    (hnc : session.is_completed = false) :
    ∃ res st', submitWithSessionPair st rid now data session pair =
        Except.ok (res, st') ∧
      res.isCorrect = decide (data.player_choice = PlayerChoice.ai) ∧
      res.pointsEarned =
        calculatePoints (decide (data.player_choice = PlayerChoice.ai))
          data.response_time pair.difficulty_level session.current_streak
          session.game_mode ∧
      res.round.points_earned = res.pointsEarned ∧
      (res.gameResult.isSome = true ↔
        ((session.game_mode = GameMode.streak ∧
            decide (data.player_choice = PlayerChoice.ai) = false) ∨
         (session.game_mode = GameMode.daily ∧
            session.rounds_completed + 1 ≥ 3))) ∧
      ∃ s', mapGet st'.gameSessions data.session_id = some s' ∧
        s'.rounds_completed = session.rounds_completed + 1 ∧
        s'.current_streak =
          (if session.game_mode = GameMode.streak ∧
              decide (data.player_choice = PlayerChoice.ai) = true then
            session.current_streak + 1
          else session.current_streak) ∧
        (s'.is_completed = true ↔
          ((session.game_mode = GameMode.streak ∧
              decide (data.player_choice = PlayerChoice.ai) = false) ∨
           (session.game_mode = GameMode.daily ∧
              session.rounds_completed + 1 ≥ 3))) := by
  unfold submitWithSessionPair
  simp only []
  split
  · rename_i hcond1
    split
    · rename_i e hE
      exact absurd hE (endGameSession_found_ne_error _ _ _ _ _ _ hs)
    · rename_i out gr st2 hE
      obtain ⟨s2, hs2, -, -, hshape⟩ := endGameSession_ok_shape _ _ _ _ _ _ hE
      rw [hs] at hs2
      injection hs2 with hs2
      subst hs2
      refine ⟨_, _, rfl, rfl, rfl, rfl,
        ⟨fun _ => Or.inl hcond1, fun _ => rfl⟩, ?_⟩
      rw [updatePairStats_gameSessions, hshape]
      exact ⟨_, mapGet_mapSet_self _ _ _, rfl, rfl,
        ⟨fun _ => Or.inl hcond1, fun _ => rfl⟩⟩
  · rename_i hncond1
    split
    · rename_i hcond2
      split
      · rename_i e hE
        exact absurd hE (endGameSession_found_ne_error _ _ _ _ _ _ hs)
      · rename_i out gr st2 hE
        obtain ⟨s2, hs2, -, -, hshape⟩ := endGameSession_ok_shape _ _ _ _ _ _ hE
        rw [hs] at hs2
        injection hs2 with hs2
        subst hs2
        refine ⟨_, _, rfl, rfl, rfl, rfl,
          ⟨fun _ => Or.inr hcond2, fun _ => rfl⟩, ?_⟩
        rw [updatePairStats_gameSessions, hshape]
        exact ⟨_, mapGet_mapSet_self _ _ _, rfl, rfl,
          ⟨fun _ => Or.inr hcond2, fun _ => rfl⟩⟩
    · rename_i hncond2
      have hnor : ¬((session.game_mode = GameMode.streak ∧
          decide (data.player_choice = PlayerChoice.ai) = false) ∨
          (session.game_mode = GameMode.daily ∧
            session.rounds_completed + 1 ≥ 3)) := by
        intro hh
        rcases hh with hh | hh
        · exact hncond1 hh
        · exact hncond2 hh
      refine ⟨_, _, rfl, rfl, rfl, rfl,
        ⟨fun hh => by simp at hh, fun hor => absurd hor hnor⟩, ?_⟩
      rw [updatePairStats_gameSessions]
      exact ⟨_, mapGet_mapSet_self _ _ _, rfl, rfl,
        ⟨fun hh => by rw [hnc] at hh; exact absurd hh (by simp),
          fun hor => absurd hor hnor⟩⟩

/-- Once a session is completed, no engine call that does not recreate its
id can make it incomplete again. -/
theorem completedAt_applyOp (st : Store) (sessionId : String) (op : Op)
    (h : completedAt st sessionId) (havoid : opAvoidsSession sessionId op) :
    completedAt (applyOp st op) sessionId := by
  obtain ⟨s, hs, hc⟩ := h
  cases op with
  | startOp newId now today data =>
      simp only [applyOp]
      split
      · rename_i out sess st' hstart
        obtain ⟨-, -, -, hshape⟩ :=
          startGameSession_ok_shape _ _ _ _ _ _ _ hstart
        refine ⟨s, ?_, hc⟩
        rw [hshape, mapGet_mapSet_ne _ _ _ _ (fun hh => havoid hh.symm)]
        exact hs
      · exact ⟨s, hs, hc⟩
  | submitOp rid now data =>
      simp only [applyOp]
      by_cases hid : data.session_id = sessionId
      · rw [submitPlayerChoice_completed st rid now data s (hid ▸ hs) hc]
        exact ⟨s, hs, hc⟩
      · split
        · rename_i res st' hsub
          obtain ⟨v, hshape⟩ := submitPlayerChoice_ok_shape _ _ _ _ _ _ hsub
          refine ⟨s, ?_, hc⟩
          rw [hshape, mapGet_mapSet_ne _ _ _ _ (fun hh => hid hh.symm)]
          exact hs
        · exact ⟨s, hs, hc⟩
  | endOp sid now u =>
      simp only [applyOp]
      split
      · rename_i gr st' hend
        obtain ⟨sess, hsess, -, -, hshape⟩ := endGameSession_ok_shape _ _ _ _ _ _ hend
        by_cases hid : sid = sessionId
        · subst hid
          exact ⟨_, by rw [hshape, mapGet_mapSet_self], rfl⟩
        · refine ⟨s, ?_, hc⟩
          rw [hshape, mapGet_mapSet_ne _ _ _ _ (fun hh => hid hh.symm)]
          exact hs
      · exact ⟨s, hs, hc⟩

/-- `completedAt` is stable under every subsequent call sequence that does
not recreate the session id. -/
theorem completedAt_applyOps (st : Store) (sessionId : String) (ops : List Op)
    (h : completedAt st sessionId)
    (hops : ∀ op ∈ ops, opAvoidsSession sessionId op) :
    completedAt (applyOps st ops) sessionId := by
  induction ops generalizing st with
  | nil => exact h
  | cons op rest ih =>
      exact ih (applyOp st op)
        (completedAt_applyOp st sessionId op h (hops op (List.mem_cons_self op rest)))
        (fun o ho => hops o (List.mem_cons_of_mem op ho))

/-! ## Claim C1: the Score Calculator formula -/

/-- Claim C1: for every response time `t` (ms), difficulty `d ∈ 1..5` and
streak `s ≥ 0`, `ScoreCalculator.calculateScore` returns 0 when the guess
is incorrect, and otherwise
`⌊(100 + d×20 + timeBonus) × (1 + s×0.1)⌋` with
`timeBonus = max(0, 50 − 2×min(t/1000, 30))`; in particular
`score(true, 0ms, 5, 0) = 250` and `score(true, 30000ms, 1, 0) = 120`. -/
theorem calculateScore_spec (t : ℚ) (d s : ℕ) (h1 : 1 ≤ d) (h2 : d ≤ 5) :
    calculateScore false t d s = 0 ∧
    calculateScore true t d s =
      ⌊(100 + (d : ℚ) * 20 + max 0 (50 - 2 * min (t / 1000) 30)) *
        (1 + (s : ℚ) * (1 / 10))⌋ ∧
    calculateScore true 0 5 0 = 250 ∧
    calculateScore true 30000 1 0 = 120 := by
  refine ⟨rfl, ?_, ?_, ?_⟩
  · show (⌊(100 + (d : ℚ) * 20 + max 0 (50 - min (t / 1000) 30 * 2)) *
        (1 + (s : ℚ) * (1 / 10))⌋ : ℤ) = _
    rw [mul_comm (min (t / 1000) 30) (2 : ℚ)]
  · norm_num [calculateScore]
  · norm_num [calculateScore]

/-- Witness for C1 at `t = 12345`, `d = 3`, `s = 7` (both hypotheses hold
there); the fixture values are part of the applied conclusion. -/
theorem calculateScore_spec_witness :
    calculateScore false 12345 3 7 = 0 ∧ calculateScore true 0 5 0 = 250 ∧
      calculateScore true 30000 1 0 = 120 := by
  have h := calculateScore_spec 12345 3 7 (by norm_num) (by norm_num)
  exact ⟨h.1, h.2.2.1, h.2.2.2⟩

/-! ## Claim C9: streak-mode target difficulty -/

/-- Claim C9: in streak mode, `getNextPairForGame`'s target difficulty is
a staircase on the session's current streak: `<3 → 1`, `<7 → 2`,
`<12 → 3`, `<20 → 4`, otherwise 5. -/
theorem nextPair_streak_difficulty (st : Store) (session : GameSession)
    (n : ℕ) (h : session.game_mode = GameMode.streak) :
    nextPairTargetDifficulty st session n =
      some (if session.current_streak < 3 then 1
        else if session.current_streak < 7 then 2
        else if session.current_streak < 12 then 3
        else if session.current_streak < 20 then 4
        else 5) := by
  simp only [nextPairTargetDifficulty, h]
  split_ifs <;> rfl

/-! ## Claim C7: pair statistics invariant -/

/-- Claim C7: a freshly created pair satisfies the statistics invariant,
one `updatePairStats` step preserves it, and the step bumps
`total_attempts` by one and `correct_guesses` by one exactly on a correct
guess. -/
theorem pairStats_invariant (newId : String) (now : ℕ) (ai re : Image)
    (p : ImagePair) (b : Bool) (t : ℚ) (hp : PairStatsInv p) :
    PairStatsInv (createImagePair newId now ai re) ∧
    PairStatsInv (updatePairStatsPair p b t) ∧
    (updatePairStatsPair p b t).total_attempts = p.total_attempts + 1 ∧
    (updatePairStatsPair p b t).correct_guesses =
      p.correct_guesses + (if b then 1 else 0) := by
  have hta : (updatePairStatsPair p b t).total_attempts = p.total_attempts + 1 :=
    rfl
  have hcg : (updatePairStatsPair p b t).correct_guesses =
      p.correct_guesses + (if b then 1 else 0) := rfl
  have hsr : (updatePairStatsPair p b t).success_rate =
      round2 (((p.correct_guesses + if b then 1 else 0 : ℕ) : ℚ) /
        ((p.total_attempts + 1 : ℕ) : ℚ) * 100) := rfl
  refine ⟨⟨le_refl 0, by simp [createImagePair]⟩, ⟨?_, ?_⟩, hta, hcg⟩
  · rw [hta, hcg]
    have := hp.1
    split <;> omega
  · rw [PairStatsInv] at *
    rw [hsr, hta, hcg, if_neg (Nat.succ_ne_zero p.total_attempts)]
    push_cast
    congr 1
    ring

/-- Witness for C7: a pair with 1 correct guess out of 2 attempts and a
50% success rate satisfies the invariant hypothesis. -/
theorem pairStats_invariant_witness :
    PairStatsInv (createImagePair "np" 3
      { id := "a", category := "portrait", difficulty_level := 2,
        is_ai_generated := true }
      { id := "r", category := "portrait", difficulty_level := 1,
        is_ai_generated := false }) ∧
    PairStatsInv (updatePairStatsPair
      { pair_id := "p1", ai_image_id := "a", real_image_id := "r",
        category := "portrait", difficulty_level := 2, creation_date := 0,
        success_rate := 50, total_attempts := 2, correct_guesses := 1,
        average_response_time := 4000, is_active := true } true 1000) ∧
    (updatePairStatsPair
      { pair_id := "p1", ai_image_id := "a", real_image_id := "r",
        category := "portrait", difficulty_level := 2, creation_date := 0,
        success_rate := 50, total_attempts := 2, correct_guesses := 1,
        average_response_time := 4000, is_active := true } true 1000).total_attempts =
      2 + 1 ∧
    (updatePairStatsPair
      { pair_id := "p1", ai_image_id := "a", real_image_id := "r",
        category := "portrait", difficulty_level := 2, creation_date := 0,
        success_rate := 50, total_attempts := 2, correct_guesses := 1,
        average_response_time := 4000, is_active := true } true 1000).correct_guesses =
      1 + (if true then 1 else 0) := by
  refine pairStats_invariant "np" 3 _ _ _ true 1000 ⟨by norm_num, ?_⟩
  show (50 : ℚ) = if (2 : ℕ) = 0 then 0 else round2 (100 * (1 : ℚ) / (2 : ℚ))
  rw [if_neg (by norm_num), round2, round_eq]
  norm_num

/-! ## Claim C8: the Pair Selector respects exclusions and signals
NotFound exactly on an empty candidate set -/

/-- Claim C8: for every selection criteria and random draw, the Selector
returns `none` (NotFound) exactly when the filtered candidate set is
empty — it never retries with relaxed criteria — and any pair it returns
is one of the candidates: in particular its id is not in the exclusion
set, and it is active whenever `activeOnly` was not explicitly `false`. -/
theorem selectPairForGame_spec (st : Store) (criteria : PairSelectionCriteria)
    (rand : ℕ) :
    (selectPairForGame st criteria rand = none ↔
      availablePairsFor st criteria = []) ∧
    (∀ p, selectPairForGame st criteria rand = some p →
      p ∈ availablePairsFor st criteria ∧
      criteria.excludePairIds.contains p.pair_id = false ∧
      (criteria.activeOnly ≠ some false → p.is_active = true)) := by
  have key : ∀ (l : List (ImagePair × ℚ)) (r : ℕ), l ≠ [] →
      ∃ x, ((l.take (min 5 l.length)).get?
        (r % (l.take (min 5 l.length)).length)).map Prod.fst = some x := by
    intro l r hl
    have h0 : 0 < l.length := List.length_pos.mpr hl
    have hmin : 0 < min 5 l.length := lt_min (by norm_num) h0
    have htl : (l.take (min 5 l.length)).length = min 5 l.length := by
      rw [List.length_take, Nat.min_eq_left (min_le_right 5 l.length)]
    have hpos : 0 < (l.take (min 5 l.length)).length := by rw [htl]; exact hmin
    have hidx := Nat.mod_lt r hpos
    have hg := List.get?_eq_get hidx
    exact ⟨_, by rw [hg]; rfl⟩
  have hmem : ∀ p, selectPairForGame st criteria rand = some p →
      p ∈ availablePairsFor st criteria := by
    intro p hp
    unfold selectPairForGame at hp
    simp only [] at hp
    split at hp
    · exact absurd hp (by simp)
    · simp only [Option.map_eq_some'] at hp
      obtain ⟨pw, hget, hfst⟩ := hp
      have h1 := List.get?_mem hget
      have h2 := List.take_subset _ _ h1
      have h3 := (List.perm_insertionSort
        (fun a b : ImagePair × ℚ => b.2 ≤ a.2) _).subset h2
      obtain ⟨q, hq, hqe⟩ := List.mem_map.mp h3
      rw [← hfst, ← hqe]
      exact hq
  have hsome : availablePairsFor st criteria ≠ [] →
      ∃ p, selectPairForGame st criteria rand = some p := by
    intro hne
    unfold selectPairForGame
    rw [if_neg (fun hlen =>
      hne ((List.length_eq_zero).mp hlen))]
    simp only []
    apply key
    intro hnil
    apply hne
    have hlen := congrArg List.length hnil
    rw [(List.perm_insertionSort (fun a b : ImagePair × ℚ => b.2 ≤ a.2) _).length_eq,
      List.length_map] at hlen
    exact (List.length_eq_zero).mp hlen
  refine ⟨⟨?_, ?_⟩, ?_⟩
  · intro hnone
    by_contra hne
    obtain ⟨p, hp⟩ := hsome hne
    rw [hp] at hnone
    exact absurd hnone (by simp)
  · intro hempty
    unfold selectPairForGame
    rw [if_pos (by rw [hempty]; rfl)]
  · intro p hp
    have hpa := hmem p hp
    refine ⟨hpa, ?_, ?_⟩
    · have hpa' := hpa
      unfold availablePairsFor at hpa'
      simp only [] at hpa'
      split at hpa'
      · simpa using (List.mem_filter.mp hpa').2
      · rename_i hcond
        have hnil : criteria.excludePairIds = [] := by
          cases hl : criteria.excludePairIds with
          | nil => rfl
          | cons a as => rw [hl] at hcond; simp at hcond
        rw [hnil]
        rfl
    · intro hao
      have hsubGet : p ∈ getAllImagePairs st
          { category := criteria.category
            difficulty := criteria.difficulty
            is_active := some (criteria.activeOnly ≠ some false) } := by
        have hpa' := hpa
        unfold availablePairsFor at hpa'
        simp only [] at hpa'
        split at hpa'
        · exact List.mem_of_mem_filter hpa'
        · exact hpa'
      have hact : p.is_active = decide (criteria.activeOnly ≠ some false) := by
        unfold getAllImagePairs at hsubGet
        simp only [] at hsubGet
        simpa using (List.mem_filter.mp hsubGet).2
      rw [hact, decide_eq_true_eq]
      exact hao

/-! ## Claim C3: one incorrect streak round ends the session for good -/

/-- Claim C3: for every streak-mode session, submitting one incorrect
round succeeds, returns a `GameResult` summary, flips the stored session's
`is_completed` to `true`, and every subsequent `submitRound` on that
session — after any interleaved engine calls that do not recreate its id —
throws `"Game session is already completed"`. -/
theorem streak_incorrect_completes (st : Store) (rid : String) (now : ℕ)
    (data : CreateGameRoundData) (session : GameSession) (pair : ImagePair)
    (hs : mapGet st.gameSessions data.session_id = some session)
    (hmode : session.game_mode = GameMode.streak)
    (hnc : session.is_completed = false)
    (hp : mapGet st.imagePairs data.pair_id = some pair)
    (hwrong : data.player_choice ≠ PlayerChoice.ai) :
    ∃ res st', submitPlayerChoice st rid now data = Except.ok (res, st') ∧
      res.gameResult.isSome = true ∧
      completedAt st' data.session_id ∧
      (∀ ops, (∀ op ∈ ops, opAvoidsSession data.session_id op) →
        ∀ rid2 now2 data2, data2.session_id = data.session_id →
          submitPlayerChoice (applyOps st' ops) rid2 now2 data2 =
            Except.error "Game session is already completed") := by
  obtain ⟨res, st', heq, -, -, -, hisSome, s', hs', -, -, hcompl⟩ :=
    submitWithSessionPair_inversion st rid now data session pair hs hnc
  have hdec : decide (data.player_choice = PlayerChoice.ai) = false :=
    decide_eq_false hwrong
  have hended : (session.game_mode = GameMode.streak ∧
      decide (data.player_choice = PlayerChoice.ai) = false) ∨
      (session.game_mode = GameMode.daily ∧
        session.rounds_completed + 1 ≥ 3) := Or.inl ⟨hmode, hdec⟩
  have hcomp : completedAt st' data.session_id :=
    ⟨s', hs', hcompl.mpr hended⟩
  refine ⟨res, st',
    (submitPlayerChoice_eq st rid now data session pair hs hnc hp).trans heq,
    hisSome.mpr hended, hcomp, ?_⟩
  intro ops hops rid2 now2 data2 hdata2
  obtain ⟨s2, hs2, hc2⟩ := completedAt_applyOps st' data.session_id ops hcomp hops
  exact submitPlayerChoice_completed _ rid2 now2 data2 s2
    (by rw [hdata2]; exact hs2) hc2

/-! ## Claim C4: daily sessions end exactly on the third round -/

/-- Claim C4: a fresh session starts with `rounds_completed = 0` and
`current_streak = 0`; a daily submission succeeds regardless of
correctness, produces a `GameResult` (and flips `is_completed`) exactly
when it is the session's 3rd round, never advances `current_streak`, and
once the 3rd round has completed the session the next (4th) `submitRound`
call throws `"Game session is already completed"`. -/
theorem daily_third_round_completes (st : Store) (rid : String) (now : ℕ)
    (data : CreateGameRoundData) (session : GameSession) (pair : ImagePair)
    (hs : mapGet st.gameSessions data.session_id = some session)
    (hmode : session.game_mode = GameMode.daily)
    (hnc : session.is_completed = false)
    (hp : mapGet st.imagePairs data.pair_id = some pair) :
    (∀ st0 id0 now0 today0 d0 s0 st0',
      startGameSession st0 id0 now0 today0 d0 = Except.ok (s0, st0') →
      s0.rounds_completed = 0 ∧ s0.current_streak = 0 ∧
        s0.is_completed = false) ∧
    ∃ res st', submitPlayerChoice st rid now data = Except.ok (res, st') ∧
      (res.gameResult.isSome = true ↔ session.rounds_completed + 1 ≥ 3) ∧
      ∃ s', mapGet st'.gameSessions data.session_id = some s' ∧
        s'.rounds_completed = session.rounds_completed + 1 ∧
        s'.current_streak = session.current_streak ∧
        (s'.is_completed = true ↔ session.rounds_completed + 1 ≥ 3) ∧
        (session.rounds_completed + 1 ≥ 3 →
          ∀ rid2 now2 data2, data2.session_id = data.session_id →
            submitPlayerChoice st' rid2 now2 data2 =
              Except.error "Game session is already completed") := by
  have hstart : ∀ st0 id0 now0 today0 d0 s0 st0',
      startGameSession st0 id0 now0 today0 d0 = Except.ok (s0, st0') →
      s0.rounds_completed = 0 ∧ s0.current_streak = 0 ∧
        s0.is_completed = false := by
    intro st0 id0 now0 today0 d0 s0 st0' h0
    obtain ⟨hsess, -, -, -⟩ := startGameSession_ok_shape _ _ _ _ _ _ _ h0
    rw [hsess]
    exact ⟨rfl, rfl, rfl⟩
  obtain ⟨res, st', heq, -, -, -, hisSome, s', hs', hrc, hcs, hcompl⟩ :=
    submitWithSessionPair_inversion st rid now data session pair hs hnc
  have hnotstreak : ¬(session.game_mode = GameMode.streak ∧
      decide (data.player_choice = PlayerChoice.ai) = false) := by
    intro hh
    rw [hmode] at hh
    exact absurd hh.1 (by simp)
  have hiff : ∀ (b : Bool),
      ((b = true) ↔ ((session.game_mode = GameMode.streak ∧
          decide (data.player_choice = PlayerChoice.ai) = false) ∨
        (session.game_mode = GameMode.daily ∧
          session.rounds_completed + 1 ≥ 3))) →
      ((b = true) ↔ session.rounds_completed + 1 ≥ 3) := by
    intro b hb
    constructor
    · intro h1
      rcases hb.mp h1 with hh | hh
      · exact absurd hh hnotstreak
      · exact hh.2
    · intro h3
      exact hb.mpr (Or.inr ⟨hmode, h3⟩)
  refine ⟨hstart, res, st',
    (submitPlayerChoice_eq st rid now data session pair hs hnc hp).trans heq,
    hiff _ hisSome, s', hs', hrc, ?_, hiff _ hcompl, ?_⟩
  · rw [hcs, if_neg]
    intro hh
    rw [hmode] at hh
    exact absurd hh.1 (by simp)
  · intro h3 rid2 now2 data2 hdata2
    exact submitPlayerChoice_completed _ rid2 now2 data2 s'
      (by rw [hdata2]; exact hs') ((hiff _ hcompl).mpr h3)

/-! ## Claim C2: what submitRound actually pays out

`GameService` never calls the `ScoreCalculator` of §4.2: its private
`calculatePoints` uses a time bonus of `max(0, 2×(30 − t/1000))` (up to
60, not 50), `Math.round` instead of `Math.floor`, and applies the streak
multiplier only in streak mode.  The two disagree — see the
counterexample below — so the points a round stores are characterised
against `calculatePoints` instead. -/

/-- Claim C2 (amended): every successful submission stores and returns
`points_earned` equal to the engine's own `calculatePoints` formula —
`0` when incorrect, otherwise
`round((100 + 100×(d×0.2) + max(0, (30 − t/1000)×2)) × m)` with
`m = 1 + streak×0.1` in streak mode and `m = 1` in daily mode — evaluated
at the pair's difficulty and the session's pre-update streak. -/
theorem submit_points_formula (st : Store) (rid : String) (now : ℕ)
    (data : CreateGameRoundData) (session : GameSession) (pair : ImagePair)
    (hs : mapGet st.gameSessions data.session_id = some session)
    (hnc : session.is_completed = false)
    (hp : mapGet st.imagePairs data.pair_id = some pair) :
    ∃ res st', submitPlayerChoice st rid now data = Except.ok (res, st') ∧
      res.round.points_earned = res.pointsEarned ∧
      res.pointsEarned =
        (if data.player_choice = PlayerChoice.ai then
          round ((100 + 100 * ((pair.difficulty_level : ℚ) * (2 / 10)) +
              max 0 ((30 - data.response_time / 1000) * 2)) *
            (if session.game_mode = GameMode.streak then
              1 + (session.current_streak : ℚ) * (1 / 10)
            else 1))
        else 0) := by
  obtain ⟨res, st', heq, -, hpts, hrpts, -, -⟩ :=
    submitWithSessionPair_inversion st rid now data session pair hs hnc
  refine ⟨res, st',
    (submitPlayerChoice_eq st rid now data session pair hs hnc hp).trans heq,
    hrpts, ?_⟩
  rw [hpts]
  by_cases hch : data.player_choice = PlayerChoice.ai
  · rw [decide_eq_true hch, if_pos hch]
    rfl
  · rw [decide_eq_false hch, if_neg hch]
    rfl

/-! ## Claim C5: double-ending a session

`endGameSession` never checks `is_completed`: called on an
already-completed session it succeeds again, re-applies the caller's
updates and re-stamps `end_time` — it does not throw `AlreadyCompleted`
and does not leave the record unchanged. -/

/-- Claim C5 (amended): calling `end` on an already-completed session
*succeeds*: it returns a recomputed `GameResult` and overwrites the stored
session with the updates applied, `is_completed := true` and a fresh
`end_time` stamp. -/
theorem endGame_completed_restamps (st : Store) (sid : String) (now : ℕ)
    (u : SessionUpdates) (session : GameSession)
    (hs : mapGet st.gameSessions sid = some session)
    (hc : session.is_completed = true) :
    ∃ gr st', endGameSession st sid now u = Except.ok (gr, st') ∧
      mapGet st'.gameSessions sid =
        some { applySessionUpdates session u with
            is_completed := true, end_time := some now } := by
  unfold endGameSession
  rw [hs]
  refine ⟨_, _, rfl, ?_⟩
  exact mapGet_mapSet_self _ _ _

/-- Counterexample to claim C5 as stated: ending the already-completed
session `d1` again at tick 99 does *not* fail with `AlreadyCompleted`; it
succeeds and changes the stored record (the `end_time` stamp moves from 50
to 99). -/
theorem endGame_on_completed_succeeds_cx :
    ∃ gr st', endGameSession storeDoneFix "d1" 99 {} = Except.ok (gr, st') ∧
      mapGet st'.gameSessions "d1" ≠ mapGet storeDoneFix.gameSessions "d1" := by
  refine ⟨_, _, rfl, ?_⟩
  decide

/-- Witness for the amended C5 at the concrete completed session. -/
theorem endGame_completed_restamps_witness :
    ∃ gr st', endGameSession storeDoneFix "d1" 99 {} = Except.ok (gr, st') ∧
      mapGet st'.gameSessions "d1" =
        some { doneSessionFix with
            is_completed := true, end_time := some 99 } :=
  endGame_completed_restamps storeDoneFix "d1" 99 {} doneSessionFix rfl rfl

/-- Witness for C3: submitting the wrong choice on the fresh streak
session of the fixture store. -/
theorem streak_incorrect_completes_witness :
    ∃ res st', submitPlayerChoice storeFix "r9" 7
        { session_id := "s1", pair_id := "p1",
          player_choice := PlayerChoice.real, response_time := 5000 } =
      Except.ok (res, st') ∧
      res.gameResult.isSome = true ∧
      completedAt st' "s1" ∧
      (∀ ops, (∀ op ∈ ops, opAvoidsSession "s1" op) →
        ∀ rid2 now2 data2, data2.session_id = "s1" →
          submitPlayerChoice (applyOps st' ops) rid2 now2 data2 =
            Except.error "Game session is already completed") :=
  streak_incorrect_completes storeFix "r9" 7
    { session_id := "s1", pair_id := "p1",
      player_choice := PlayerChoice.real, response_time := 5000 }
    streakSessionFix pairFix rfl rfl rfl rfl (by decide)

/-- Witness for C4: a first daily round on the fixture store (the
correctness of the choice is irrelevant to the completion logic). -/
theorem daily_third_round_completes_witness :
    (∀ st0 id0 now0 today0 d0 s0 st0',
      startGameSession st0 id0 now0 today0 d0 = Except.ok (s0, st0') →
      s0.rounds_completed = 0 ∧ s0.current_streak = 0 ∧
        s0.is_completed = false) ∧
    ∃ res st', submitPlayerChoice storeFix "r8" 3
        { session_id := "s2", pair_id := "p1",
          player_choice := PlayerChoice.ai, response_time := 1000 } =
      Except.ok (res, st') ∧
      (res.gameResult.isSome = true ↔ 0 + 1 ≥ 3) ∧
      ∃ s', mapGet st'.gameSessions "s2" = some s' ∧
        s'.rounds_completed = 0 + 1 ∧
        s'.current_streak = 0 ∧
        (s'.is_completed = true ↔ 0 + 1 ≥ 3) ∧
        (0 + 1 ≥ 3 →
          ∀ rid2 now2 data2, data2.session_id = "s2" →
            submitPlayerChoice st' rid2 now2 data2 =
              Except.error "Game session is already completed") :=
  daily_third_round_completes storeFix "r8" 3
    { session_id := "s2", pair_id := "p1",
      player_choice := PlayerChoice.ai, response_time := 1000 }
    dailySessionFix pairFix rfl rfl rfl rfl

/-- Witness for the amended C2 on the fixture store's daily session. -/
theorem submit_points_formula_witness :
    ∃ res st', submitPlayerChoice storeFix "r7" 4
        { session_id := "s2", pair_id := "p1",
          player_choice := PlayerChoice.ai, response_time := 2000 } =
      Except.ok (res, st') ∧
      res.round.points_earned = res.pointsEarned ∧
      res.pointsEarned =
        (if (PlayerChoice.ai : PlayerChoice) = PlayerChoice.ai then
          round ((100 + 100 * ((1 : ℚ) * (2 / 10)) +
              max 0 ((30 - (2000 : ℚ) / 1000) * 2)) * (1 : ℚ))
        else 0) :=
  submit_points_formula storeFix "r7" 4
    { session_id := "s2", pair_id := "p1",
      player_choice := PlayerChoice.ai, response_time := 2000 }
    dailySessionFix pairFix rfl rfl rfl

/-- Counterexample to claim C2 as stated: the first daily round of the
fixture (difficulty 1, instant response, streak 0) stores 180 points —
`calculatePoints` grants a 60-point instant-response bonus and rounds —
while the §4.2 Score Calculator yields `⌊100 + 20 + 50⌋ = 170` for the
same inputs. -/
theorem submit_points_ne_scoreCalculator_cx :
    ∃ res st', submitPlayerChoice storeFix "r2" 5
        { session_id := "s2", pair_id := "p1",
          player_choice := PlayerChoice.ai, response_time := 0 } =
      Except.ok (res, st') ∧
      res.pointsEarned ≠
        calculateScore true 0 pairFix.difficulty_level
          dailySessionFix.current_streak ∧
      res.pointsEarned = 180 ∧
      calculateScore true 0 pairFix.difficulty_level
        dailySessionFix.current_streak = 170 := by
  have h180 : calculatePoints true 0 1 0 GameMode.daily = 180 := by
    norm_num [calculatePoints, round_eq]
  have h170 : calculateScore true 0 1 0 = 170 := by
    norm_num [calculateScore]
  refine ⟨_, _, rfl, ?_, ?_, ?_⟩
  · show calculatePoints (decide (PlayerChoice.ai = PlayerChoice.ai)) 0 1 0
        GameMode.daily ≠ calculateScore true 0 1 0
    rw [show decide (PlayerChoice.ai = PlayerChoice.ai) = true from rfl,
      h180, h170]
    omega
  · show calculatePoints (decide (PlayerChoice.ai = PlayerChoice.ai)) 0 1 0
        GameMode.daily = 180
    rw [show decide (PlayerChoice.ai = PlayerChoice.ai) = true from rfl]
    exact h180
  · exact h170

/-- Witness for C8: the fixture pair is selected (random draw 0), and the
spec's consequences hold for it. -/
theorem selectPairForGame_spec_witness :
    pairFix ∈ availablePairsFor storeFix criteriaFix ∧
    criteriaFix.excludePairIds.contains pairFix.pair_id = false ∧
    (criteriaFix.activeOnly ≠ some false → pairFix.is_active = true) :=
  (selectPairForGame_spec storeFix criteriaFix 0).2 pairFix rfl

/-- Witness for C9 at streak 0 (difficulty 1). -/
theorem nextPair_streak_difficulty_witness :
    nextPairTargetDifficulty storeFix streakSessionFix 0 = some 1 :=
  nextPair_streak_difficulty storeFix streakSessionFix 0 rfl

/-- Claim C6 fails on the code (code bug): after `traceC6`, the store
holds two *completed* daily sessions for the same player `"P"` and the
same `daily_challenge_date` `"2024-01-01"` — the engine accepted and
completed both. -/
theorem daily_duplicate_completed_trace :
    ((mapGet (applyOps storeC6 traceC6).gameSessions "S1").map
        (fun s => (s.player_id, s.game_mode, s.daily_challenge_date,
          s.is_completed)) =
      some (some "P", GameMode.daily, some "2024-01-01", true)) ∧
    ((mapGet (applyOps storeC6 traceC6).gameSessions "S2").map
        (fun s => (s.player_id, s.game_mode, s.daily_challenge_date,
          s.is_completed)) =
      some (some "P", GameMode.daily, some "2024-01-01", true)) ∧
    ("S1" : String) ≠ "S2" := by
  refine ⟨by decide, by decide, by decide⟩

/-! ## Claim C10: the leaderboard fixture -/

/-- Counterexample to claim C10 as stated: player A is *not* excluded —
300 is the third-highest best score among [300, 500, 500, 100], so A takes
rank 3 and D is the player left out. -/
theorem leaderboard_includes_A_cx :
    "A" ∈ (getLeaderboard lbSessions none 3).map (fun e => e.2.player_id) := by
  decide

/-- Claim C10 (amended): on the fixture, `limit = 3` yields exactly three
entries, ranked 1..3 by descending best score: the tied B and C at ranks
1 and 2 (stable order), A at rank 3 with 300, and D excluded. -/
theorem leaderboard_top3 :
    (getLeaderboard lbSessions none 3).map
        (fun e => (e.1, e.2.player_id, e.2.best_score)) =
      [(1, "B", 500), (2, "C", 500), (3, "A", 300)] := by
  decide

end BotOrNot
